import Mathlib

/-! Shallow embedding of the pricing, seat-inventory and booking-lifecycle
engine of `src/trainbooking.py` (class `BookingSystem`).

Modelling conventions:
* Python numeric values (prices, discounts, refunds) are modelled as exact
  rationals `ℚ`; ticket counts are `ℕ`; a train's `seats` field is `ℤ` so that
  non-negativity is a provable property rather than a typing artefact.
* Python dicts are association lists; the bookings list is a Lean `List`.
* Mutation of aliased dictionaries is modelled by explicit functional update
  of the corresponding entry of the state.
* Interactive prompting, JSON persistence and random data generation are the
  excluded I/O boundary: operations receive already-validated inputs.
-/

namespace TrainBooking

/-- BookingSystem.DISCOUNT_RATES["CHILD"] = 0.50 -/
def childRate : ℚ := 1/2

/-- BookingSystem.DISCOUNT_RATES["INFANT"] = 1.00 -/
def infantRate : ℚ := 1

/-- BookingSystem.DISCOUNT_RATES["SENIOR_CITIZEN"] = 0.30 -/
def seniorRate : ℚ := 3/10

/-- BookingSystem.DISCOUNT_RATES["OFF_PEAK_SEASON"] = 0.10 -/
def offPeakRate : ℚ := 1/10

/-- Per-category ticket counts, as entered in `search_and_book_trains`
(lines 317-320) and as cancel counts in `cancel_booking`. -/
structure Counts where
  adults : ℕ
  infants : ℕ
  children : ℕ
  seniors : ℕ
deriving DecidableEq, Repr

/-- The `"breakdown"` sub-dictionary of the pricing dict
(`_calculate_discounted_price`, lines 262-267). -/
structure Breakdown where
  infant_savings : ℚ
  child_savings : ℚ
  senior_savings : ℚ
  season_savings : ℚ
deriving DecidableEq, Repr

/-- The dictionary returned by `_calculate_discounted_price` (lines 253-268). -/
structure PricingDetails where
  final_price : ℚ
  base_price_per_ticket : ℚ
  adults_tickets : ℕ
  infant_tickets : ℕ
  children_tickets : ℕ
  seniors_tickets : ℕ
  subtotal : ℚ
  total_discount : ℚ
  breakdown : Breakdown
deriving DecidableEq, Repr

/-- A travel date already validated by `_get_validated_date` (format
`YYYY-MM-DD`); `_calculate_discounted_price` only inspects the month. -/
structure TravelDate where
  year : ℕ
  month : ℕ
  day : ℕ
deriving DecidableEq, Repr

/-- `_calculate_discounted_price(base_price, travel_date_str, num_adults,
num_infants, num_children, num_seniors)`, lines 223-268.  The date string has
been validated upstream, so the parse cannot fail and only the month test
(line 244) matters. -/
def calculateDiscountedPrice (base_price : ℚ) (d : TravelDate)
    (num_adults num_infants num_children num_seniors : ℕ) : PricingDetails :=
  let price_adults : ℚ := base_price * num_adults
  let price_infants : ℚ := base_price * num_infants * (1 - infantRate)
  let infant_savings : ℚ := base_price * num_infants * infantRate
  let price_children : ℚ := base_price * num_children * (1 - childRate)
  let child_savings : ℚ := base_price * num_children * childRate
  let price_seniors : ℚ := base_price * num_seniors * (1 - seniorRate)
  let senior_savings : ℚ := base_price * num_seniors * seniorRate
  let subtotal : ℚ := price_adults + price_infants + price_children + price_seniors
  let total_category_discount : ℚ := infant_savings + child_savings + senior_savings
  let season_savings : ℚ := if d.month = 1 ∨ d.month = 2 then subtotal * offPeakRate else 0
  let final_total_price : ℚ := subtotal - season_savings
  let total_discount : ℚ := total_category_discount + season_savings
  { final_price := final_total_price
    base_price_per_ticket := base_price
    adults_tickets := num_adults
    infant_tickets := num_infants
    children_tickets := num_children
    seniors_tickets := num_seniors
    subtotal := subtotal
    total_discount := total_discount
    breakdown :=
      { infant_savings := infant_savings
        child_savings := child_savings
        senior_savings := senior_savings
        season_savings := season_savings } }

/-- Per-ticket paid price used by the refund loop of `cancel_booking`
(lines 509-516): adults pay `base * 1.0`, infants `0.0`, children
`base * (1 - CHILD)`, seniors `base * (1 - SENIOR_CITIZEN)`. -/
def adultPaidPrice (base : ℚ) : ℚ := base * 1
/-- Infant per-ticket paid price, `cancel_booking` line 512. -/
def infantPaidPrice : ℚ := 0
/-- Child per-ticket paid price, `cancel_booking` line 514. -/
def childPaidPrice (base : ℚ) : ℚ := base * (1 - childRate)
/-- Senior per-ticket paid price, `cancel_booking` line 516. -/
def seniorPaidPrice (base : ℚ) : ℚ := base * (1 - seniorRate)

/-- One category's contribution to `total_refund_gross`: the refund loop
(lines 496-525) only prompts — and only accumulates — when the category has
`remaining > 0`; otherwise the cancel count is recorded as 0 and nothing is
added. -/
def categoryGross (remaining cancel : ℕ) (paid : ℚ) : ℚ :=
  if 0 < remaining then (cancel : ℚ) * paid else 0

/-- `total_refund_gross` accumulated over the four categories of
`cancel_booking` (lines 491-518), from the stored `base_price_per_ticket`,
the remaining per-category counts and the per-category cancel counts. -/
def totalRefundGross (base : ℚ) (remaining cancel : Counts) : ℚ :=
  categoryGross remaining.adults cancel.adults (adultPaidPrice base)
  + categoryGross remaining.infants cancel.infants infantPaidPrice
  + categoryGross remaining.children cancel.children (childPaidPrice base)
  + categoryGross remaining.seniors cancel.seniors (seniorPaidPrice base)

/-- `cancellation_fee_rate = 0.10`, `cancel_booking` line 544. -/
def cancellationFeeRate : ℚ := 1/10

/-- `cancellation_fee = total_refund_gross * cancellation_fee_rate`, line 545. -/
def cancellationFee (gross : ℚ) : ℚ := gross * cancellationFeeRate

/-- `net_refund = total_refund_gross - cancellation_fee`, line 546. -/
def netRefund (gross : ℚ) : ℚ := gross - cancellationFee gross

/-- One operation on a single train's seat count.  `reserve` is the booking
path: the bound check `1 <= num_tickets <= selected_train['seats']`
(`search_and_book_trains` line 328) guards the decrement
`train['seats'] -= num_tickets` (`confirm_and_create_booking` line 400);
a failed check re-prompts and leaves seats unchanged.  `release` is the
cancellation path's unconditional `train['seats'] += total_cancelled_seats`
(`cancel_booking` line 568). -/
inductive SeatOp where
  | reserve (count : ℕ)
  | release (count : ℕ)
deriving DecidableEq, Repr

/-- Effect of one `SeatOp` on a seat count. -/
def applySeatOp (seats : ℤ) : SeatOp → ℤ
  | .reserve c => if 1 ≤ c ∧ (c : ℤ) ≤ seats then seats - c else seats
  | .release c => seats + c

/-- Effect of a sequence of seat operations, applied left to right. -/
def applySeatOps (seats : ℤ) (ops : List SeatOp) : ℤ :=
  ops.foldl applySeatOp seats

/-- One entry of the `trains_db` dictionary (`_create_train_database`,
lines 94-101): id, name, departure, arrival, base price, seats.  `seats` is a
Python int, so it is modelled as `ℤ` and its non-negativity is a property,
not a typing assumption. -/
structure Train where
  id : String
  name : String
  departure : String
  arrival : String
  price : ℚ
  seats : ℤ
deriving DecidableEq, Repr

/-- A booking record as built in `confirm_and_create_booking`
(lines 384-394); `train_details` is a value copy (`train.copy()`). -/
structure Booking where
  booking_id : String
  username : String
  booking_time : String
  train_details : Train
  route_from : String
  route_to : String
  travel_date : TravelDate
  num_tickets : ℕ
  pricing : PricingDetails
  total_price : ℚ
deriving DecidableEq, Repr

/-- The mutable in-memory state of `BookingSystem`: `self.trains_db` (a dict
from route key to train list, modelled as an association list) and
`self.bookings` (a list). -/
structure SystemState where
  trains_db : List (String × List Train)
  bookings : List Booking
deriving DecidableEq, Repr

/-- `f"{from_stn}::{to_stn}"`, the route key built at lines 285 and 563. -/
def routeKey (from_stn to_stn : String) : String := from_stn ++ "::" ++ to_stn

/-- Dictionary lookup `trains_db.get(route_key)` / `trains_db[route_key]`. -/
def lookupRoute (db : List (String × List Train)) (k : String) :
    Option (List Train) :=
  (db.find? (fun p => decide (p.1 = k))).map (fun p => p.2)

/-- The train the user selected: `results[choice_index]` where
`results = trains_db.get(route_key, [])` (lines 286, 312). -/
def lookupTrain (db : List (String × List Train)) (k : String) (idx : ℕ) :
    Option Train :=
  (lookupRoute db k).bind (fun ts => ts.get? idx)

/-- In-place mutation of `results[idx]['seats']` seen through the dictionary:
the selected train is an alias into `trains_db`, so
`train['seats'] -= num_tickets` (line 400) changes the db entry. -/
def adjustSeatsAt (ts : List Train) (idx : ℕ) (delta : ℤ) : List Train :=
  match ts.get? idx with
  | none => ts
  | some t => ts.set idx { t with seats := t.seats + delta }

/-- The same mutation lifted to the route dictionary (dict keys are unique,
so updating every entry with the key is the dict update). -/
def adjustRouteSeatsAt (db : List (String × List Train)) (k : String)
    (idx : ℕ) (delta : ℤ) : List (String × List Train) :=
  db.map (fun p => if p.1 = k then (p.1, adjustSeatsAt p.2 idx delta) else p)

/-- The two mutation steps of the booking-lifecycle paths, in the order the
source executes them. -/
inductive Event where
  | ledgerAppend
  | inventoryReserve
  | ledgerRemove
  | ledgerUpdate
  | inventoryRelease
deriving DecidableEq, Repr

/-- Rejection outcomes of the create path: an out-of-range train selection
re-prompts (line 347), `num_tickets == 0` is rejected (line 324), and a
total above the available seats is rejected (line 328). -/
inductive CreateError where
  | invalidSelection
  | emptyBooking
  | insufficientSeats
deriving DecidableEq, Repr

/-- Result of one create attempt: the (possibly unchanged) state, the
outcome, and the mutation events in source order. -/
structure CreateResult where
  state : SystemState
  outcome : Except CreateError Booking
  events : List Event

/-- The create path: ticket-count validation from `search_and_book_trains`
(lines 317-334), pricing (line 336), and the confirmed booking creation of
`confirm_and_create_booking` (lines 382-403): the record is appended to
`self.bookings` (line 396) and then the selected train's seats are
decremented (line 400). -/
def createBooking (st : SystemState) (from_stn to_stn : String) (idx : ℕ)
    (booking_id username booking_time : String) (d : TravelDate)
    (c : Counts) : CreateResult :=
  match lookupTrain st.trains_db (routeKey from_stn to_stn) idx with
  | none => { state := st, outcome := .error .invalidSelection, events := [] }
  | some train =>
    let num_tickets := c.adults + c.infants + c.children + c.seniors
    if num_tickets = 0 then
      { state := st, outcome := .error .emptyBooking, events := [] }
    else if ¬ (1 ≤ num_tickets ∧ (num_tickets : ℤ) ≤ train.seats) then
      { state := st, outcome := .error .insufficientSeats, events := [] }
    else
      let pricing := calculateDiscountedPrice train.price d
        c.adults c.infants c.children c.seniors
      let record : Booking :=
        { booking_id := booking_id
          username := username
          booking_time := booking_time
          train_details := train
          route_from := from_stn
          route_to := to_stn
          travel_date := d
          num_tickets := num_tickets
          pricing := pricing
          total_price := pricing.final_price }
      let s1 : SystemState := { st with bookings := st.bookings ++ [record] }
      let db2 := adjustRouteSeatsAt s1.trains_db (routeKey from_stn to_stn)
        idx (-(num_tickets : ℤ))
      let s2 : SystemState := { s1 with trains_db := db2 }
      { state := s2, outcome := .ok record,
        events := [Event.ledgerAppend, Event.inventoryReserve] }

/-- The in-place partial-cancellation mutation of `cancel_booking`
(lines 555-559): decrement each category count in the stored pricing dict,
set `num_tickets` to the remaining total and `total_price` to the old total
minus the net refund.  Nothing else of the record is touched. -/
def applyPartialCancel (b : Booking) (cancel : Counts) (net : ℚ) : Booking :=
  { b with
    pricing := { b.pricing with
      adults_tickets := b.pricing.adults_tickets - cancel.adults
      infant_tickets := b.pricing.infant_tickets - cancel.infants
      children_tickets := b.pricing.children_tickets - cancel.children
      seniors_tickets := b.pricing.seniors_tickets - cancel.seniors }
    num_tickets := b.num_tickets
      - (cancel.adults + cancel.infants + cancel.children + cancel.seniors)
    total_price := b.total_price - net }

/-- Replacement of the first occurrence of a value in a list: the Python
booking selected for modification is an alias into `self.bookings`, so its
in-place mutation replaces that element of the ledger. -/
def replaceFirst : List Booking → Booking → Booking → List Booking
  | [], _, _ => []
  | x :: xs, old, b' =>
      if x = old then b' :: xs else x :: replaceFirst xs old b'

/-- The seat-restoration scan of `cancel_booking` (lines 566-569): add the
count back to the first train whose id matches, then `break`; a list with no
match is returned unchanged (and no warning is raised). -/
def addSeatsFirstMatch : List Train → String → ℕ → List Train
  | [], _, _ => []
  | t :: ts, tid, k =>
      if t.id = tid then { t with seats := t.seats + (k : ℤ) } :: ts
      else t :: addSeatsFirstMatch ts tid k

/-- The guarded seat restoration of `cancel_booking` (lines 565-573):
`self.trains_db[route_key]` raises `KeyError` when the route key is absent,
which is caught and surfaced as a warning with the db unchanged; otherwise
the matching train (if any) gets the seats back and no warning is raised. -/
def restoreSeats (db : List (String × List Train)) (k tid : String)
    (count : ℕ) : (List (String × List Train)) × Bool :=
  match lookupRoute db k with
  | none => (db, true)
  | some _ =>
      (db.map (fun p =>
        if p.1 = k then (p.1, addSeatsFirstMatch p.2 tid count) else p),
       false)

/-- Result of one cancel attempt: the state, whether the request was aborted
(`total_cancelled_seats == 0`, line 528), whether the booking was removed
(full cancel), the inventory-restoration warning flag, the refund breakdown,
and the mutation events in source order. -/
structure CancelResult where
  state : SystemState
  aborted : Bool
  removed : Bool
  warning : Bool
  gross : ℚ
  fee : ℚ
  net : ℚ
  events : List Event

/-- The cancel path of `cancel_booking` (lines 491-575) for a booking `b`
assumed selected from the current user's bookings: compute the gross refund
from the stored `base_price_per_ticket` and the per-category cancel counts
(each bounded by the stored remaining count by the input loop), apply the
10% fee, then mutate the ledger (remove on full cancel, in-place update on
partial cancel, lines 551-559) and finally restore seats to inventory
(lines 565-573). -/
def cancelBooking (st : SystemState) (b : Booking) (cancel : Counts) :
    CancelResult :=
  let total_cancelled :=
    cancel.adults + cancel.infants + cancel.children + cancel.seniors
  if total_cancelled = 0 then
    { state := st, aborted := true, removed := false, warning := false,
      gross := 0, fee := 0, net := 0, events := [] }
  else
    let remaining : Counts :=
      ⟨b.pricing.adults_tickets, b.pricing.infant_tickets,
       b.pricing.children_tickets, b.pricing.seniors_tickets⟩
    let gross := totalRefundGross b.pricing.base_price_per_ticket remaining cancel
    let fee := cancellationFee gross
    let net := netRefund gross
    let new_tickets := b.num_tickets - total_cancelled
    let ledgerPair : List Booking × Bool :=
      if new_tickets = 0 then (st.bookings.erase b, true)
      else (replaceFirst st.bookings b (applyPartialCancel b cancel net), false)
    let dbPair := restoreSeats st.trains_db (routeKey b.route_from b.route_to)
      b.train_details.id total_cancelled
    { state := { trains_db := dbPair.1, bookings := ledgerPair.1 },
      aborted := false, removed := ledgerPair.2, warning := dbPair.2,
      gross := gross, fee := fee, net := net,
      events := (if ledgerPair.2 then [Event.ledgerRemove]
                 else [Event.ledgerUpdate]) ++ [Event.inventoryRelease] }

/-- The per-user filter of `view_my_bookings` (line 414). -/
def findByUser (bookings : List Booking) (username : String) : List Booking :=
  bookings.filter (fun b => decide (b.username = username))

/-- The ledger invariant: a booking's `num_tickets` equals the sum of its
four stored category counts. -/
def ticketInvariant (b : Booking) : Prop :=
  b.num_tickets = b.pricing.adults_tickets + b.pricing.infant_tickets
    + b.pricing.children_tickets + b.pricing.seniors_tickets

instance (b : Booking) : Decidable (ticketInvariant b) := by
  unfold ticketInvariant; infer_instance

/-- A concrete train record used as a test fixture. -/
def sampleTrain : Train :=
  { id := "MUDE123", name := "Rajdhani Express", departure := "08:00",
    arrival := "20:00", price := 1000, seats := 50 }

/-- A concrete system state with one route and one train and no bookings. -/
def sampleState : SystemState :=
  { trains_db := [(routeKey "Mumbai" "Delhi", [sampleTrain])], bookings := [] }

/-- A concrete pricing breakdown: 1 adult at base price 1000, June travel
(the values `calculateDiscountedPrice 1000 ⟨2026,6,15⟩ 1 0 0 0` produces,
written as literals). -/
def samplePricing : PricingDetails :=
  { final_price := 1000, base_price_per_ticket := 1000,
    adults_tickets := 1, infant_tickets := 0, children_tickets := 0,
    seniors_tickets := 0, subtotal := 1000, total_discount := 0,
    breakdown := { infant_savings := 0, child_savings := 0,
                   senior_savings := 0, season_savings := 0 } }

/-- A concrete booking of 1 adult ticket on the sample train. -/
def sampleBooking : Booking :=
  { booking_id := "BCC1780000000123", username := "alice",
    booking_time := "2026-06-01T10:00:00",
    train_details := sampleTrain, route_from := "Mumbai", route_to := "Delhi",
    travel_date := ⟨2026, 6, 15⟩, num_tickets := 1,
    pricing := samplePricing, total_price := 1000 }

/-- The sample state together with the sample booking in the ledger. -/
def sampleStateWithBooking : SystemState :=
  { trains_db := [(routeKey "Mumbai" "Delhi", [sampleTrain])],
    bookings := [sampleBooking] }

/-- A booking whose train id no longer exists on its (still existing)
route: the inventory snapshot was regenerated after booking. -/
def ghostBooking : Booking :=
  { sampleBooking with
    booking_id := "BCC1780000000999"
    train_details := { sampleTrain with id := "GONE999" } }

/-- State containing the ghost booking; the route key exists in inventory
but holds no train with the booking's id. -/
def ghostState : SystemState :=
  { trains_db := [(routeKey "Mumbai" "Delhi", [sampleTrain])],
    bookings := [ghostBooking] }

/-- State containing the ghost booking with the route key itself gone. -/
def missingRouteState : SystemState :=
  { trains_db := [], bookings := [ghostBooking] }

theorem totalRefundGross_eq_formula (base : ℚ) (remaining cancel : Counts)
    (ha : cancel.adults ≤ remaining.adults)
    (hi : cancel.infants ≤ remaining.infants)
    (hc : cancel.children ≤ remaining.children)
    (hs : cancel.seniors ≤ remaining.seniors) :
    totalRefundGross base remaining cancel
      = base * cancel.adults + 0 * cancel.infants
        + (1/2) * base * cancel.children + (7/10) * base * cancel.seniors := by
  unfold totalRefundGross categoryGross adultPaidPrice infantPaidPrice
    childPaidPrice seniorPaidPrice childRate seniorRate
  rcases Nat.eq_zero_or_pos remaining.adults with h | h
  all_goals rcases Nat.eq_zero_or_pos remaining.infants with h2 | h2
  all_goals rcases Nat.eq_zero_or_pos remaining.children with h3 | h3
  all_goals rcases Nat.eq_zero_or_pos remaining.seniors with h4 | h4
  all_goals simp_all
  all_goals ring

/-- C1: for every base price `p ≥ 0`, travel date and non-negative counts,
the fare calculator's `final_price` is `p*adult + 0*infant + p*(1/2)*child +
p*(7/10)*senior` when the travel month is not January or February, and that
subtotal minus 10% of it (season savings applied to the post-category
subtotal) when the month is January or February. -/
theorem C1_fare_formula (p : ℚ) (hp : 0 ≤ p) (d : TravelDate)
    (a i c s : ℕ) :
    (¬ (d.month = 1 ∨ d.month = 2) →
      (calculateDiscountedPrice p d a i c s).final_price
        = p * a + 0 * i + p * (1/2) * c + p * (7/10) * s) ∧
    ((d.month = 1 ∨ d.month = 2) →
      (calculateDiscountedPrice p d a i c s).final_price
        = (p * a + 0 * i + p * (1/2) * c + p * (7/10) * s)
          - (p * a + 0 * i + p * (1/2) * c + p * (7/10) * s) * (1/10)) := by
  constructor
  · intro h
    simp only [calculateDiscountedPrice, infantRate, childRate, seniorRate,
      offPeakRate, if_neg h]
    ring
  · intro h
    simp only [calculateDiscountedPrice, infantRate, childRate, seniorRate,
      offPeakRate, if_pos h]
    ring

/-- C1 witness: concrete instance `p = 1000`, June and January travel,
counts (2,1,1,1), matching the worked example of the spec. -/
theorem C1_fare_formula_witness :
    (0 : ℚ) ≤ 1000 ∧
    (calculateDiscountedPrice 1000 ⟨2026, 6, 15⟩ 2 1 1 1).final_price
      = 1000 * 2 + 0 * 1 + 1000 * (1/2) * 1 + 1000 * (7/10) * 1 ∧
    (calculateDiscountedPrice 1000 ⟨2026, 1, 15⟩ 2 1 1 1).final_price
      = (1000 * 2 + 0 * 1 + 1000 * (1/2) * 1 + 1000 * (7/10) * 1)
        - (1000 * 2 + 0 * 1 + 1000 * (1/2) * 1 + 1000 * (7/10) * 1) * (1/10) :=
  ⟨by norm_num,
   (C1_fare_formula 1000 (by norm_num) ⟨2026, 6, 15⟩ 2 1 1 1).1 (by decide),
   (C1_fare_formula 1000 (by norm_num) ⟨2026, 1, 15⟩ 2 1 1 1).2 (by decide)⟩

/-- C2: for every non-aborted cancellation of a booking (per-category cancel
counts each bounded by the stored remaining counts, not all zero), the gross
refund is `base*adults + 0*infants + (1/2)*base*children +
(7/10)*base*seniors` over the cancel counts, with `base` the stored
`base_price_per_ticket` — the booking-time season discount never enters —
the fee is 10% of the gross, and the net refund is `gross * (9/10)`. -/
theorem C2_refund_formula (st : SystemState) (b : Booking) (cancel : Counts)
    (h0 : cancel.adults + cancel.infants + cancel.children + cancel.seniors
      ≠ 0)
    (ha : cancel.adults ≤ b.pricing.adults_tickets)
    (hi : cancel.infants ≤ b.pricing.infant_tickets)
    (hc : cancel.children ≤ b.pricing.children_tickets)
    (hs : cancel.seniors ≤ b.pricing.seniors_tickets) :
    (cancelBooking st b cancel).gross
      = b.pricing.base_price_per_ticket * cancel.adults + 0 * cancel.infants
        + (1/2) * b.pricing.base_price_per_ticket * cancel.children
        + (7/10) * b.pricing.base_price_per_ticket * cancel.seniors ∧
    (cancelBooking st b cancel).fee
      = (cancelBooking st b cancel).gross * (1/10) ∧
    (cancelBooking st b cancel).net
      = (cancelBooking st b cancel).gross * (9/10) := by
  have hg : (cancelBooking st b cancel).gross
      = totalRefundGross b.pricing.base_price_per_ticket
          ⟨b.pricing.adults_tickets, b.pricing.infant_tickets,
           b.pricing.children_tickets, b.pricing.seniors_tickets⟩ cancel := by
    simp only [cancelBooking, if_neg h0]
  have hf : (cancelBooking st b cancel).fee
      = cancellationFee (cancelBooking st b cancel).gross := by
    simp only [cancelBooking, if_neg h0]
  have hn : (cancelBooking st b cancel).net
      = netRefund (cancelBooking st b cancel).gross := by
    simp only [cancelBooking, if_neg h0]
  refine ⟨?_, ?_, ?_⟩
  · rw [hg]; exact totalRefundGross_eq_formula _ _ _ ha hi hc hs
  · rw [hf]; unfold cancellationFee cancellationFeeRate; ring
  · rw [hn]; unfold netRefund cancellationFee cancellationFeeRate; ring

/-- C2 witness: cancelling 1 adult ticket on the sample booking with
`base_price_per_ticket = 1000` yields gross 1000, fee 100, net 900. -/
theorem C2_refund_formula_witness :
    (cancelBooking sampleStateWithBooking sampleBooking
        ⟨1, 0, 0, 0⟩).gross = 1000 ∧
    (cancelBooking sampleStateWithBooking sampleBooking
        ⟨1, 0, 0, 0⟩).fee = 100 ∧
    (cancelBooking sampleStateWithBooking sampleBooking
        ⟨1, 0, 0, 0⟩).net = 900 := by
  have h := C2_refund_formula sampleStateWithBooking sampleBooking
    ⟨1, 0, 0, 0⟩ (by decide) (by decide) (by decide) (by decide) (by decide)
  refine ⟨?_, ?_, ?_⟩
  · rw [h.1]; norm_num [sampleBooking, samplePricing]
  · rw [h.2.1, h.1]; norm_num [sampleBooking, samplePricing]
  · rw [h.2.2, h.1]; norm_num [sampleBooking, samplePricing]

/-- C4: starting from a non-negative seat count, no sequence of reserve
(guarded decrement) and release (increment) operations ever drives the
train's seat count negative. -/
theorem C4_seats_nonneg (seats : ℤ) (h : 0 ≤ seats) (ops : List SeatOp) :
    0 ≤ applySeatOps seats ops := by
  induction ops generalizing seats with
  | nil => exact h
  | cons op rest ih =>
    refine ih (applySeatOp seats op) ?_
    cases op with
    | reserve c =>
      by_cases hc : 1 ≤ c ∧ (c : ℤ) ≤ seats
      · simp only [applySeatOp, if_pos hc]; omega
      · simp only [applySeatOp, if_neg hc]; exact h
    | release c =>
      simp only [applySeatOp]; positivity

/-- C4 witness: from 5 seats the sequence reserve 3, release 2, reserve 4,
reserve 2, release 1 keeps the count non-negative. -/
theorem C4_seats_nonneg_witness :
    0 ≤ applySeatOps 5
      [SeatOp.reserve 3, SeatOp.release 2, SeatOp.reserve 4,
       SeatOp.reserve 2, SeatOp.release 1] :=
  C4_seats_nonneg 5 (by decide)
    [SeatOp.reserve 3, SeatOp.release 2, SeatOp.reserve 4,
     SeatOp.reserve 2, SeatOp.release 1]

/-- C5: a successful reserve of `c` seats (so `1 ≤ c ≤ seats`) followed
immediately by a release of the same `c` restores the seat count exactly. -/
theorem C5_reserve_release_roundtrip (seats : ℤ) (c : ℕ)
    (h1 : 1 ≤ c) (h2 : (c : ℤ) ≤ seats) :
    applySeatOps seats [SeatOp.reserve c, SeatOp.release c] = seats := by
  simp only [applySeatOps, List.foldl, applySeatOp, if_pos (And.intro h1 h2)]
  ring

/-- C5 witness: reserving then releasing 3 seats on a train with 10 seats
returns it to 10. -/
theorem C5_reserve_release_roundtrip_witness :
    applySeatOps 10 [SeatOp.reserve 3, SeatOp.release 3] = 10 :=
  C5_reserve_release_roundtrip 10 3 (by decide) (by decide)

theorem mem_replaceFirst {l : List Booking} {old b' x : Booking}
    (h : x ∈ replaceFirst l old b') : x ∈ l ∨ x = b' := by
  induction l with
  | nil => simp [replaceFirst] at h
  | cons y ys ih =>
    by_cases hy : y = old
    · rw [replaceFirst, if_pos hy] at h
      rcases List.mem_cons.mp h with h1 | h1
      · exact Or.inr h1
      · exact Or.inl (List.mem_cons_of_mem _ h1)
    · rw [replaceFirst, if_neg hy] at h
      rcases List.mem_cons.mp h with h1 | h1
      · exact Or.inl (h1 ▸ List.mem_cons_self _ _)
      · rcases ih h1 with h2 | h2
        · exact Or.inl (List.mem_cons_of_mem _ h2)
        · exact Or.inr h2

/-- C3: the ticket-total invariant `num_tickets = adults + infants +
children + seniors` holds for every booking in the ledger after a create
operation, and after a cancel operation (whose per-category cancel counts
are bounded by the stored counts, as the input loop enforces), provided it
held before. -/
theorem C3_ticket_total_invariant
    (st : SystemState) (hst : ∀ b0 ∈ st.bookings, ticketInvariant b0)
    (from_stn to_stn : String) (idx : ℕ) (bid user t0 : String)
    (d : TravelDate) (c : Counts)
    (b : Booking) (hb : b ∈ st.bookings) (cancel : Counts)
    (hca : cancel.adults ≤ b.pricing.adults_tickets)
    (hci : cancel.infants ≤ b.pricing.infant_tickets)
    (hcc : cancel.children ≤ b.pricing.children_tickets)
    (hcs : cancel.seniors ≤ b.pricing.seniors_tickets) :
    (∀ b' ∈ (createBooking st from_stn to_stn idx bid user t0 d c).state.bookings,
        ticketInvariant b') ∧
    (∀ b' ∈ (cancelBooking st b cancel).state.bookings, ticketInvariant b') := by
  constructor
  · cases htr : lookupTrain st.trains_db (routeKey from_stn to_stn) idx with
    | none =>
      intro b' hb'
      simp only [createBooking, htr] at hb'
      exact hst b' hb'
    | some train =>
      intro b' hb'
      simp only [createBooking, htr] at hb'
      by_cases h0 : c.adults + c.infants + c.children + c.seniors = 0
      · rw [if_pos h0] at hb'; exact hst b' hb'
      · rw [if_neg h0] at hb'
        by_cases hcap : ¬ (1 ≤ c.adults + c.infants + c.children + c.seniors ∧
            ((c.adults + c.infants + c.children + c.seniors : ℕ) : ℤ) ≤ train.seats)
        · rw [if_pos hcap] at hb'; exact hst b' hb'
        · rw [if_neg hcap] at hb'
          simp only [List.mem_append, List.mem_singleton] at hb'
          rcases hb' with h1 | h1
          · exact hst b' h1
          · subst h1
            simp [ticketInvariant, calculateDiscountedPrice]
  · intro b' hb'
    by_cases h0 : cancel.adults + cancel.infants + cancel.children + cancel.seniors = 0
    · simp only [cancelBooking, if_pos h0] at hb'
      exact hst b' hb'
    · simp only [cancelBooking, if_neg h0] at hb'
      by_cases hnew : b.num_tickets
          - (cancel.adults + cancel.infants + cancel.children + cancel.seniors) = 0
      · rw [if_pos hnew] at hb'
        exact hst b' (List.mem_of_mem_erase hb')
      · rw [if_neg hnew] at hb'
        rcases mem_replaceFirst hb' with h1 | h1
        · exact hst b' h1
        · subst h1
          have hbinv := hst b hb
          simp only [ticketInvariant, applyPartialCancel] at hbinv ⊢
          omega

/-- C3 witness: in the concrete one-booking state, both a create of one
adult ticket and a partial cancel of zero⁺-bounded counts keep the invariant
for the booking that remains; here instantiated at the sample booking inside
the post-create ledger. -/
theorem C3_ticket_total_invariant_witness : ticketInvariant sampleBooking :=
  (C3_ticket_total_invariant sampleStateWithBooking (by decide)
    "Mumbai" "Delhi" 0 "BCC2" "alice" "t" ⟨2026, 6, 15⟩ ⟨1, 0, 0, 0⟩
    sampleBooking (by simp [sampleStateWithBooking]) ⟨1, 0, 0, 0⟩
    (by decide) (by decide) (by decide) (by decide)).1
    sampleBooking (by
      have hl : lookupTrain sampleStateWithBooking.trains_db
          (routeKey "Mumbai" "Delhi") 0 = some sampleTrain := by decide
      simp only [createBooking, hl]
      norm_num [sampleTrain, sampleStateWithBooking])

/-- C6: with a valid train selection, a create request whose ticket total is
0 is rejected as an empty booking, and one whose total exceeds the train's
available seats is rejected for insufficient seats; in both cases the state
(inventory and ledger) is unchanged. -/
theorem C6_create_rejections (st : SystemState) (from_stn to_stn : String)
    (idx : ℕ) (bid user t0 : String) (d : TravelDate) (c : Counts)
    (train : Train)
    (htrain : lookupTrain st.trains_db (routeKey from_stn to_stn) idx
      = some train) :
    (c.adults + c.infants + c.children + c.seniors = 0 →
      (createBooking st from_stn to_stn idx bid user t0 d c).outcome
          = Except.error CreateError.emptyBooking ∧
      (createBooking st from_stn to_stn idx bid user t0 d c).state = st) ∧
    (c.adults + c.infants + c.children + c.seniors ≠ 0 →
      train.seats < ((c.adults + c.infants + c.children + c.seniors : ℕ) : ℤ) →
      (createBooking st from_stn to_stn idx bid user t0 d c).outcome
          = Except.error CreateError.insufficientSeats ∧
      (createBooking st from_stn to_stn idx bid user t0 d c).state = st) := by
  constructor
  · intro h0
    simp only [createBooking, htrain]
    rw [if_pos h0]
    exact ⟨rfl, rfl⟩
  · intro h0 hseats
    have hcond : ¬ (1 ≤ c.adults + c.infants + c.children + c.seniors ∧
        ((c.adults + c.infants + c.children + c.seniors : ℕ) : ℤ) ≤ train.seats) := by
      rintro ⟨-, h2⟩; omega
    simp only [createBooking, htrain]
    rw [if_neg h0, if_pos hcond]
    exact ⟨rfl, rfl⟩

/-- C6 witness: in the sample state (50 seats), a request for 0 tickets is
rejected as empty and a request for 60 adult tickets is rejected for
insufficient seats, both leaving the state unchanged. -/
theorem C6_create_rejections_witness :
    (createBooking sampleState "Mumbai" "Delhi" 0 "BCC3" "alice" "t"
        ⟨2026, 6, 15⟩ ⟨0, 0, 0, 0⟩).outcome
      = Except.error CreateError.emptyBooking ∧
    (createBooking sampleState "Mumbai" "Delhi" 0 "BCC3" "alice" "t"
        ⟨2026, 6, 15⟩ ⟨0, 0, 0, 0⟩).state = sampleState ∧
    (createBooking sampleState "Mumbai" "Delhi" 0 "BCC3" "alice" "t"
        ⟨2026, 6, 15⟩ ⟨60, 0, 0, 0⟩).outcome
      = Except.error CreateError.insufficientSeats ∧
    (createBooking sampleState "Mumbai" "Delhi" 0 "BCC3" "alice" "t"
        ⟨2026, 6, 15⟩ ⟨60, 0, 0, 0⟩).state = sampleState := by
  have h1 := (C6_create_rejections sampleState "Mumbai" "Delhi" 0 "BCC3"
    "alice" "t" ⟨2026, 6, 15⟩ ⟨0, 0, 0, 0⟩ sampleTrain (by decide)).1 (by decide)
  have h2 := (C6_create_rejections sampleState "Mumbai" "Delhi" 0 "BCC3"
    "alice" "t" ⟨2026, 6, 15⟩ ⟨60, 0, 0, 0⟩ sampleTrain (by decide)).2
    (by decide) (by decide)
  exact ⟨h1.1, h1.2, h2.1, h2.2⟩

/-- C7: cancelling a booking's full remaining ticket total removes it from
the ledger, so it is absent from every later `findByUser` query of its
owner (booking records are pairwise distinct, as their time+random ids make
them in practice). -/
theorem C7_full_cancel_removes (st : SystemState) (b : Booking)
    (hnodup : st.bookings.Nodup) (cancel : Counts)
    (htot : cancel.adults + cancel.infants + cancel.children + cancel.seniors
      = b.num_tickets)
    (hne : b.num_tickets ≠ 0) :
    b ∉ findByUser (cancelBooking st b cancel).state.bookings b.username := by
  have h0 : cancel.adults + cancel.infants + cancel.children + cancel.seniors
      ≠ 0 := by omega
  have hnew : b.num_tickets
      - (cancel.adults + cancel.infants + cancel.children + cancel.seniors)
      = 0 := by omega
  intro hmem
  simp only [cancelBooking, if_neg h0, hnew, if_pos rfl] at hmem
  have hb' : b ∈ st.bookings.erase b := (List.mem_filter.mp hmem).1
  exact hnodup.not_mem_erase hb'

/-- C7 witness: fully cancelling the single adult ticket of the sample
booking makes it absent from its owner's booking list. -/
theorem C7_full_cancel_removes_witness :
    sampleBooking ∉ findByUser
      (cancelBooking sampleStateWithBooking sampleBooking
        ⟨1, 0, 0, 0⟩).state.bookings sampleBooking.username :=
  C7_full_cancel_removes sampleStateWithBooking sampleBooking
    (by decide) ⟨1, 0, 0, 0⟩ (by decide) (by decide)

theorem addSeatsFirstMatch_no_match {ts : List Train} {tid : String}
    {cnt : ℕ} (h : ∀ t ∈ ts, t.id ≠ tid) :
    addSeatsFirstMatch ts tid cnt = ts := by
  induction ts with
  | nil => rfl
  | cons t ts ih =>
    rw [addSeatsFirstMatch, if_neg (h t (List.mem_cons_self _ _)),
      ih (fun u hu => h u (List.mem_cons_of_mem _ hu))]

theorem restore_map_unchanged {db : List (String × List Train)}
    {k tid : String} {cnt : ℕ}
    (h : ∀ p ∈ db, p.1 = k → ∀ t ∈ p.2, t.id ≠ tid) :
    db.map (fun p =>
      if p.1 = k then (p.1, addSeatsFirstMatch p.2 tid cnt) else p) = db := by
  induction db with
  | nil => rfl
  | cons p ps ih =>
    simp only [List.map_cons]
    rw [ih (fun q hq => h q (List.mem_cons_of_mem _ hq))]
    by_cases hp : p.1 = k
    · rw [if_pos hp,
        addSeatsFirstMatch_no_match (h p (List.mem_cons_self _ _) hp)]
    · rw [if_neg hp]

/-- C8 counterexample: a cancellation whose booking references a train id
that no longer exists in inventory, while the route key still exists.  The
claim says a warning must be surfaced; the code's restoration loop finds no
match, raises nothing, and no warning is surfaced (`warning = false`), even
though inventory stays unrestored; the ledger-side cancellation still
commits (the booking is removed). -/
theorem C8_counterexample :
    sampleTrain.id ≠ ghostBooking.train_details.id ∧
    lookupRoute ghostState.trains_db
      (routeKey ghostBooking.route_from ghostBooking.route_to)
      = some [sampleTrain] ∧
    (cancelBooking ghostState ghostBooking ⟨1, 0, 0, 0⟩).warning = false ∧
    (cancelBooking ghostState ghostBooking ⟨1, 0, 0, 0⟩).state.trains_db
      = ghostState.trains_db ∧
    (cancelBooking ghostState ghostBooking ⟨1, 0, 0, 0⟩).state.bookings
      = [] := by
  decide

/-- C8 amended: the inventory-restoration warning is surfaced exactly when
the route key is missing from inventory (the `KeyError` path); when the
route exists but no train there carries the booking's train id, inventory
is left unrestored silently, with no warning.  In every non-aborted case
the ledger-side cancellation still commits (removal on full cancel,
in-place update on partial cancel). -/
theorem C8_restore_amended (st : SystemState) (b : Booking) (cancel : Counts)
    (h0 : cancel.adults + cancel.infants + cancel.children + cancel.seniors
      ≠ 0) :
    ((cancelBooking st b cancel).warning = true ↔
      lookupRoute st.trains_db (routeKey b.route_from b.route_to) = none) ∧
    (lookupRoute st.trains_db (routeKey b.route_from b.route_to) = none →
      (cancelBooking st b cancel).state.trains_db = st.trains_db) ∧
    (lookupRoute st.trains_db (routeKey b.route_from b.route_to) ≠ none →
      (∀ p ∈ st.trains_db, p.1 = routeKey b.route_from b.route_to →
        ∀ t ∈ p.2, t.id ≠ b.train_details.id) →
      (cancelBooking st b cancel).state.trains_db = st.trains_db ∧
      (cancelBooking st b cancel).warning = false) ∧
    (cancelBooking st b cancel).state.bookings =
      (if b.num_tickets
          - (cancel.adults + cancel.infants + cancel.children + cancel.seniors)
          = 0
       then st.bookings.erase b
       else replaceFirst st.bookings b (applyPartialCancel b cancel
         (netRefund (totalRefundGross b.pricing.base_price_per_ticket
           ⟨b.pricing.adults_tickets, b.pricing.infant_tickets,
            b.pricing.children_tickets, b.pricing.seniors_tickets⟩
           cancel)))) := by
  refine ⟨?_, ?_, ?_, ?_⟩
  · simp only [cancelBooking, if_neg h0, restoreSeats]
    cases hr : lookupRoute st.trains_db (routeKey b.route_from b.route_to) with
    | none => simp
    | some ts => simp
  · intro hr
    simp only [cancelBooking, if_neg h0, restoreSeats, hr]
  · intro hr hnom
    cases hr2 : lookupRoute st.trains_db (routeKey b.route_from b.route_to) with
    | none => exact absurd hr2 hr
    | some ts =>
      simp only [cancelBooking, if_neg h0, restoreSeats, hr2]
      exact ⟨restore_map_unchanged hnom, by simp⟩
  · simp only [cancelBooking, if_neg h0]
    by_cases hnew : b.num_tickets
        - (cancel.adults + cancel.infants + cancel.children + cancel.seniors)
        = 0
    · rw [if_pos hnew, if_pos hnew]
    · rw [if_neg hnew, if_neg hnew]

/-- C8 amended witness: with the route key gone from inventory, cancelling
the ghost booking surfaces the warning and leaves inventory untouched. -/
theorem C8_restore_amended_witness :
    (cancelBooking missingRouteState ghostBooking ⟨1, 0, 0, 0⟩).warning
      = true ∧
    (cancelBooking missingRouteState ghostBooking ⟨1, 0, 0, 0⟩).state.trains_db
      = missingRouteState.trains_db := by
  have h := C8_restore_amended missingRouteState ghostBooking ⟨1, 0, 0, 0⟩
    (by decide)
  exact ⟨h.1.mpr (by decide), h.2.1 (by decide)⟩

/-- C9 counterexample: on a concrete successful create, the event order is
ledger append first, inventory reserve second — not the claimed
reserve-before-append order. -/
theorem C9_counterexample :
    (createBooking sampleState "Mumbai" "Delhi" 0 "BCC4" "alice" "t"
        ⟨2026, 6, 15⟩ ⟨1, 0, 0, 0⟩).events
      = [Event.ledgerAppend, Event.inventoryReserve] ∧
    [Event.ledgerAppend, Event.inventoryReserve]
      ≠ [Event.inventoryReserve, Event.ledgerAppend] := by
  constructor
  · have hl : lookupTrain sampleState.trains_db (routeKey "Mumbai" "Delhi") 0
        = some sampleTrain := by decide
    simp only [createBooking, hl]
    norm_num [sampleTrain]
  · decide

/-- C9 amended: on every successful create the ledger append happens before
the inventory reservation, and on every non-aborted cancellation the ledger
mutation (removal or update) likewise happens before the inventory release —
the same order on both paths, not opposite orders. -/
theorem C9_order_amended (st : SystemState) (from_stn to_stn : String)
    (idx : ℕ) (bid user t0 : String) (d : TravelDate) (c : Counts)
    (train : Train)
    (htrain : lookupTrain st.trains_db (routeKey from_stn to_stn) idx
      = some train)
    (h0 : c.adults + c.infants + c.children + c.seniors ≠ 0)
    (hseats : ((c.adults + c.infants + c.children + c.seniors : ℕ) : ℤ)
      ≤ train.seats)
    (b : Booking) (cancel : Counts)
    (hc0 : cancel.adults + cancel.infants + cancel.children + cancel.seniors
      ≠ 0) :
    (createBooking st from_stn to_stn idx bid user t0 d c).events
      = [Event.ledgerAppend, Event.inventoryReserve] ∧
    ((cancelBooking st b cancel).events
        = [Event.ledgerRemove, Event.inventoryRelease] ∨
     (cancelBooking st b cancel).events
        = [Event.ledgerUpdate, Event.inventoryRelease]) := by
  constructor
  · have hcond : ¬¬(1 ≤ c.adults + c.infants + c.children + c.seniors ∧
        ((c.adults + c.infants + c.children + c.seniors : ℕ) : ℤ)
          ≤ train.seats) :=
      not_not_intro ⟨by omega, hseats⟩
    simp only [createBooking, htrain]
    rw [if_neg h0, if_neg hcond]
  · simp only [cancelBooking, if_neg hc0]
    by_cases hnew : b.num_tickets
        - (cancel.adults + cancel.infants + cancel.children + cancel.seniors)
        = 0
    · rw [if_pos hnew]; left; rfl
    · rw [if_neg hnew]; right; rfl

/-- C9 amended witness: a concrete successful create and a concrete full
cancel, both showing the ledger event first. -/
theorem C9_order_amended_witness :
    (createBooking sampleStateWithBooking "Mumbai" "Delhi" 0 "BCC5" "alice"
        "t" ⟨2026, 6, 15⟩ ⟨1, 0, 0, 0⟩).events
      = [Event.ledgerAppend, Event.inventoryReserve] ∧
    ((cancelBooking sampleStateWithBooking sampleBooking ⟨1, 0, 0, 0⟩).events
        = [Event.ledgerRemove, Event.inventoryRelease] ∨
     (cancelBooking sampleStateWithBooking sampleBooking ⟨1, 0, 0, 0⟩).events
        = [Event.ledgerUpdate, Event.inventoryRelease]) :=
  C9_order_amended sampleStateWithBooking "Mumbai" "Delhi" 0 "BCC5" "alice"
    "t" ⟨2026, 6, 15⟩ ⟨1, 0, 0, 0⟩ sampleTrain (by decide) (by decide)
    (by decide) sampleBooking ⟨1, 0, 0, 0⟩ (by decide)

/-- C10: a partial cancellation updates only the per-category counts, the
ticket total and the total price of the stored record; the stored price
breakdown's `subtotal`, `total_discount`, `final_price`,
`base_price_per_ticket` and savings breakdown keep their creation-time
values, so the stored breakdown no longer recomputes from the remaining
counts. -/
theorem C10_cancel_update_frame (b : Booking) (cancel : Counts) (net : ℚ) :
    (applyPartialCancel b cancel net).pricing.subtotal
      = b.pricing.subtotal ∧
    (applyPartialCancel b cancel net).pricing.total_discount
      = b.pricing.total_discount ∧
    (applyPartialCancel b cancel net).pricing.final_price
      = b.pricing.final_price ∧
    (applyPartialCancel b cancel net).pricing.base_price_per_ticket
      = b.pricing.base_price_per_ticket ∧
    (applyPartialCancel b cancel net).pricing.breakdown
      = b.pricing.breakdown ∧
    (applyPartialCancel b cancel net).booking_id = b.booking_id ∧
    (applyPartialCancel b cancel net).username = b.username ∧
    (applyPartialCancel b cancel net).train_details = b.train_details ∧
    (applyPartialCancel b cancel net).travel_date = b.travel_date ∧
    (applyPartialCancel b cancel net).pricing.adults_tickets
      = b.pricing.adults_tickets - cancel.adults ∧
    (applyPartialCancel b cancel net).pricing.infant_tickets
      = b.pricing.infant_tickets - cancel.infants ∧
    (applyPartialCancel b cancel net).pricing.children_tickets
      = b.pricing.children_tickets - cancel.children ∧
    (applyPartialCancel b cancel net).pricing.seniors_tickets
      = b.pricing.seniors_tickets - cancel.seniors ∧
    (applyPartialCancel b cancel net).num_tickets
      = b.num_tickets
        - (cancel.adults + cancel.infants + cancel.children + cancel.seniors) ∧
    (applyPartialCancel b cancel net).total_price = b.total_price - net := by
  simp [applyPartialCancel]

end TrainBooking
